import Mathlib

/-
Shallow embedding of src/src/server/real_time_server.js.

The RealTimeServer is modelled as a pure state machine.  Its JS instance
fields become fields of the record ServerState; the EventEmitter calls
(self.emit) and the transport-level emit calls (socket.emit,
ioServer.emit, socket.broadcast.emit) are recorded in an append-only
event trace, which is the observable behaviour of the server.  Fail-fast
throws (the failFast library) become Except.error results; a throw in
the JS code happens before any mutation in every operation that can
throw, so an error result leaves the server state unchanged (exceptRun
below recovers the unchanged state, as a caller catching the exception
would observe it).

JS objects have identity; the field nextSocketHandle models it: each
NullSocket allocation (new NullSocket(clientId) inside connectNullClient)
receives a fresh handle number.  Machine integers do not occur in the
source; counts are Nat.
-/

deriving instance DecidableEq for Except

namespace RTS

/-- A typed message: the source treats any value exposing name() and
payload() as a message; both are modelled as strings. -/
structure Message where
  name : String
  payload : String
deriving DecidableEq

/-- RealTimeServer.SEND_TYPE from the source. -/
inductive SendType where
  | one_client
  | all_clients
  | all_clients_but_one
deriving DecidableEq

/-- The record passed to recordServerMessage.  The ALL_CLIENTS record in
the source has no clientId property, hence the Option. -/
structure SendRecord where
  message : Message
  clientId : Option String
  type : SendType
deriving DecidableEq

/-- A transport handle as stored in the registry.  For a NullSocket the
getter isNull returns true; for a real socket.io socket the property is
undefined, so the check isNull === true is false: modelled as isNull =
false.  handle models JS object identity. -/
structure Socket where
  id : String
  isNull : Bool
  handle : Nat
deriving DecidableEq

/-- Observable events: the four RealTimeServer.EVENT emissions plus the
transport-level emit calls issued by the router. -/
inductive Event where
  | clientConnect (clientId : String)
  | clientDisconnect (clientId : String)
  | clientMessage (clientId : String) (message : Message)
  | serverMessage (record : SendRecord)
  | socketEmit (handle : Nat) (socketId : String) (name : String) (payload : String)
  | ioServerEmit (name : String) (payload : String)
  | socketBroadcastEmit (handle : Nat) (name : String) (payload : String)
deriving DecidableEq

/-- The two fail-fast failures reachable from the public operations
modelled here, keeping the clientId that the JS message interpolates. -/
inductive FailFastError where
  | socketNotConnected (clientId : String)
  | disconnectNonNullClient (clientId : String)
deriving DecidableEq

/-- The instance state of a RealTimeServer: the _socketIoConnections
object (an insertion-ordered map from client id to socket, modelled as
an association list), the _lastSentMessage field (undefined initially,
hence Option), the allocation counter for socket identity, and the
event trace. -/
structure ServerState where
  socketIoConnections : List (String × Socket)
  lastSentMessage : Option SendRecord
  nextSocketHandle : Nat
  events : List Event
deriving DecidableEq

/-- Property read on a JS object: connections[clientId], none when the
key is absent (undefined). -/
def alLookup (k : String) : List (String × Socket) → Option Socket
  | [] => none
  | (k1, v) :: rest => if k1 = k then some v else alLookup k rest

/-- Assignment connections[key] = socket: replaces the value in place
when the key exists (JS keeps the original insertion position), appends
at the end otherwise. -/
def alInsert (k : String) (v : Socket) : List (String × Socket) → List (String × Socket)
  | [] => [(k, v)]
  | (k1, v1) :: rest => if k1 = k then (k, v) :: rest else (k1, v1) :: alInsert k v rest

/-- delete connections[key]: the key is removed entirely. -/
def alErase (k : String) : List (String × Socket) → List (String × Socket)
  | [] => []
  | (k1, v1) :: rest => if k1 = k then alErase k rest else (k1, v1) :: alErase k rest

/-- RealTimeServer.createNull(): empty registry, no last sent message. -/
def createNull : ServerState :=
  { socketIoConnections := []
    lastSentMessage := none
    nextSocketHandle := 0
    events := [] }

/-- function connectClient(self, socket): registers the socket under
socket.id and emits CLIENT_CONNECT.  The failFast.unlessDefined check on
socket.id cannot fire in the embedding because ids are total strings. -/
def connectClient (s : ServerState) (socket : Socket) : ServerState :=
  { s with
    socketIoConnections := alInsert socket.id socket s.socketIoConnections
    events := s.events ++ [Event.clientConnect socket.id] }

/-- function disconnectClient(self, socket): deletes socket.id from the
registry and emits CLIENT_DISCONNECT. -/
def disconnectClient (s : ServerState) (socket : Socket) : ServerState :=
  { s with
    socketIoConnections := alErase socket.id s.socketIoConnections
    events := s.events ++ [Event.clientDisconnect socket.id] }

/-- function lookUpSocket(self, clientId): fails fast when the id is not
a key of the registry. -/
def lookUpSocket (s : ServerState) (clientId : String) : Except FailFastError Socket :=
  match alLookup clientId s.socketIoConnections with
  | some socket => Except.ok socket
  | none => Except.error (FailFastError.socketNotConnected clientId)

/-- connectNullClient(clientId): connectClient with a fresh NullSocket
whose id is clientId; the fresh allocation consumes a handle number. -/
def connectNullClient (s : ServerState) (clientId : String) : ServerState :=
  connectClient
    { s with nextSocketHandle := s.nextSocketHandle + 1 }
    { id := clientId, isNull := true, handle := s.nextSocketHandle }

/-- disconnectNullClient(clientId): looks the socket up (fail fast when
absent), fails fast unless socket.isNull === true, then disconnects. -/
def disconnectNullClient (s : ServerState) (clientId : String) :
    Except FailFastError ServerState :=
  match lookUpSocket s clientId with
  | Except.error e => Except.error e
  | Except.ok socket =>
    if socket.isNull then
      Except.ok (disconnectClient s socket)
    else
      Except.error (FailFastError.disconnectNonNullClient clientId)

/-- function recordServerMessage(self, messageInfo): stores the record
in _lastSentMessage and emits SERVER_MESSAGE with it. -/
def recordServerMessage (s : ServerState) (messageInfo : SendRecord) : ServerState :=
  { s with
    lastSentMessage := some messageInfo
    events := s.events ++ [Event.serverMessage messageInfo] }

/-- sendToOneClient(clientId, message): looks the socket up (fail fast
when absent), calls socket.emit(message.name(), message.payload()) on
that handle, then records a ONE_CLIENT SendRecord. -/
def sendToOneClient (s : ServerState) (clientId : String) (message : Message) :
    Except FailFastError ServerState :=
  match lookUpSocket s clientId with
  | Except.error e => Except.error e
  | Except.ok socket =>
    Except.ok (recordServerMessage
      { s with events := s.events ++
          [Event.socketEmit socket.handle socket.id message.name message.payload] }
      { message := message, clientId := some clientId, type := SendType.one_client })

/-- broadcastToAllClients(message): emits on the io server (delivery to
every connected client is the transport collaborator duty) and records
an ALL_CLIENTS SendRecord, which carries no clientId. -/
def broadcastToAllClients (s : ServerState) (message : Message) : ServerState :=
  recordServerMessage
    { s with events := s.events ++ [Event.ioServerEmit message.name message.payload] }
    { message := message, clientId := none, type := SendType.all_clients }

/-- broadcastToAllClientsButOne(clientToExclude, message): looks the
excluded socket up (fail fast when absent), calls
socket.broadcast.emit on it, records an ALL_CLIENTS_BUT_ONE record. -/
def broadcastToAllClientsButOne (s : ServerState) (clientToExclude : String)
    (message : Message) : Except FailFastError ServerState :=
  match lookUpSocket s clientToExclude with
  | Except.error e => Except.error e
  | Except.ok socket =>
    Except.ok (recordServerMessage
      { s with events := s.events ++
          [Event.socketBroadcastEmit socket.handle message.name message.payload] }
      { message := message, clientId := some clientToExclude,
        type := SendType.all_clients_but_one })

/-- getLastSentMessage(): returns _lastSentMessage (undefined = none
before any send). -/
def getLastSentMessage (s : ServerState) : Option SendRecord :=
  s.lastSentMessage

/-- isClientConnected(clientId): _socketIoConnections[clientId] !==
undefined. -/
def isClientConnected (s : ServerState) (clientId : String) : Bool :=
  (alLookup clientId s.socketIoConnections).isSome

/-- numberOfActiveConnections(): Object.keys(_socketIoConnections)
.length. -/
def numberOfActiveConnections (s : ServerState) : Nat :=
  (s.socketIoConnections.map Prod.fst).length

/-- function handleClientMessage(self, clientId, message): emits one
CLIENT_MESSAGE event carrying \x7bclientId, message\x7d; nothing else. -/
def handleClientMessage (s : ServerState) (clientId : String) (message : Message) :
    ServerState :=
  { s with events := s.events ++ [Event.clientMessage clientId message] }

/-- simulateClientMessage(clientId, message) delegates to
handleClientMessage with no connectivity check. -/
def simulateClientMessage (s : ServerState) (clientId : String) (message : Message) :
    ServerState :=
  handleClientMessage s clientId message

/-- Observation of the server after an operation that may throw: on a
throw the exception propagates before any mutation, so the caller sees
the prior state. -/
def exceptRun (s : ServerState) (r : Except FailFastError ServerState) : ServerState :=
  match r with
  | Except.ok s2 => s2
  | Except.error _ => s

/-- One registry operation on the substitute transport, as in the C1
sequences: connectNullClient or disconnectNullClient. -/
inductive ConnOp where
  | connect (clientId : String)
  | disconnect (clientId : String)
deriving DecidableEq

/-- Applies one ConnOp; a disconnect whose fail-fast check fires leaves
the server unchanged (the throw happens before any mutation). -/
def applyConnOp (s : ServerState) (op : ConnOp) : ServerState :=
  match op with
  | ConnOp.connect c => connectNullClient s c
  | ConnOp.disconnect c => exceptRun s (disconnectNullClient s c)

/-- Runs a sequence of substitute-transport registry operations. -/
def runConnOps (s : ServerState) (ops : List ConnOp) : ServerState :=
  ops.foldl applyConnOp s

/-- Number of connect operations in a sequence. -/
def countConnects : List ConnOp → Nat
  | [] => 0
  | ConnOp.connect _ :: rest => countConnects rest + 1
  | ConnOp.disconnect _ :: rest => countConnects rest

/-- Number of disconnect operations that complete (do not fail fast)
when the sequence runs from state s. -/
def completedDisconnects (s : ServerState) : List ConnOp → Nat
  | [] => 0
  | ConnOp.connect c :: rest => completedDisconnects (applyConnOp s (ConnOp.connect c)) rest
  | ConnOp.disconnect c :: rest =>
    (match disconnectNullClient s c with
     | Except.ok _ => 1
     | Except.error _ => 0) +
    completedDisconnects (applyConnOp s (ConnOp.disconnect c)) rest

/-- Holds when, run from s, every connect of the sequence targets an id
that is not connected at that point (no duplicate connect). -/
def validConnSeq (s : ServerState) : List ConnOp → Bool
  | [] => true
  | ConnOp.connect c :: rest =>
    !(isClientConnected s c) && validConnSeq (applyConnOp s (ConnOp.connect c)) rest
  | ConnOp.disconnect c :: rest => validConnSeq (applyConnOp s (ConnOp.disconnect c)) rest

/-- Membership predicted from the operation sequence alone: an id is
active after the sequence exactly when some connect of it is not
followed by a disconnect of it (b is the membership before the
sequence). -/
def specActive (b : Bool) (clientId : String) : List ConnOp → Bool
  | [] => b
  | ConnOp.connect c :: rest => specActive (if c = clientId then true else b) clientId rest
  | ConnOp.disconnect c :: rest => specActive (if c = clientId then false else b) clientId rest

/-- A test-surface operation for the C10 sequences: everything the
substitute transport can drive that is not an outbound send. -/
inductive TestOp where
  | connect (clientId : String)
  | disconnect (clientId : String)
  | simulate (clientId : String) (message : Message)
deriving DecidableEq

/-- Applies one TestOp with the same recovery convention as ConnOp. -/
def applyTestOp (s : ServerState) (op : TestOp) : ServerState :=
  match op with
  | TestOp.connect c => connectNullClient s c
  | TestOp.disconnect c => exceptRun s (disconnectNullClient s c)
  | TestOp.simulate c m => simulateClientMessage s c m

/-- Runs a sequence of non-send test operations. -/
def runTestOps (s : ServerState) (ops : List TestOp) : ServerState :=
  ops.foldl applyTestOp s

/-- Registry invariant of every reachable null-server state: keys are
distinct, each entry is stored under its own socket id, and every
registered socket is a substitute one. -/
def goodState (s : ServerState) : Prop :=
  (s.socketIoConnections.map Prod.fst).Nodup ∧
  ∀ p ∈ s.socketIoConnections, p.2.id = p.1 ∧ p.2.isNull = true

/-- Sample sequence used to exercise the C1 statement. -/
def sampleOps : List ConnOp :=
  [ConnOp.connect "a", ConnOp.connect "b", ConnOp.disconnect "a"]

/-- Sample server holding one real (non-substitute) connection, as the
socket.io connection handler would register it. -/
def realSockServer : ServerState :=
  connectClient createNull { id := "r", isNull := false, handle := 7 }

/-- Sample message. -/
def drawMessage : Message :=
  { name := "draw", payload := "payloadA" }

/-- Looking a key up right after inserting it finds the new value. -/
theorem alLookup_alInsert_self (k : String) (v : Socket) (l : List (String × Socket)) :
    alLookup k (alInsert k v l) = some v := by
  induction l with
  | nil => simp [alInsert, alLookup]
  | cons p rest ih =>
    obtain ⟨k1, v1⟩ := p
    by_cases h : k1 = k
    · simp [alInsert, alLookup, h]
    · simp [alInsert, alLookup, h, ih]

/-- Inserting one key does not change lookups of another. -/
theorem alLookup_alInsert_ne (q k : String) (v : Socket) (l : List (String × Socket))
    (h : q ≠ k) : alLookup q (alInsert k v l) = alLookup q l := by
  induction l with
  | nil => simp [alInsert, alLookup, Ne.symm h]
  | cons p rest ih =>
    obtain ⟨k1, v1⟩ := p
    by_cases h1 : k1 = k
    · subst h1
      simp [alInsert, alLookup, Ne.symm h]
    · simp [alInsert, alLookup, h1, ih]

/-- Looking a key up right after erasing it finds nothing. -/
theorem alLookup_alErase_self (k : String) (l : List (String × Socket)) :
    alLookup k (alErase k l) = none := by
  induction l with
  | nil => rfl
  | cons p rest ih =>
    obtain ⟨k1, v1⟩ := p
    by_cases h : k1 = k
    · simp [alErase, h, ih]
    · simp [alErase, alLookup, h, ih]

/-- Erasing one key does not change lookups of another. -/
theorem alLookup_alErase_ne (q k : String) (l : List (String × Socket))
    (h : q ≠ k) : alLookup q (alErase k l) = alLookup q l := by
  induction l with
  | nil => rfl
  | cons p rest ih =>
    obtain ⟨k1, v1⟩ := p
    by_cases h1 : k1 = k
    · subst h1
      simp [alErase, alLookup, Ne.symm h, ih]
    · simp [alErase, alLookup, h1, ih]

/-- A key is missing exactly when it is not among the stored keys. -/
theorem alLookup_eq_none_iff (k : String) (l : List (String × Socket)) :
    alLookup k l = none ↔ k ∉ l.map Prod.fst := by
  induction l with
  | nil => simp [alLookup]
  | cons p rest ih =>
    obtain ⟨k1, v1⟩ := p
    by_cases h : k1 = k
    · simp [alLookup, h]
    · simp [alLookup, h, ih, Ne.symm h]

/-- Inserting a fresh key appends the binding at the end. -/
theorem alInsert_absent (k : String) (v : Socket) (l : List (String × Socket))
    (h : alLookup k l = none) : alInsert k v l = l ++ [(k, v)] := by
  induction l with
  | nil => rfl
  | cons p rest ih =>
    obtain ⟨k1, v1⟩ := p
    by_cases h1 : k1 = k
    · simp [alLookup, h1] at h
    · simp [alLookup, h1] at h
      simp [alInsert, h1, ih h]

/-- Erasing an absent key is a no-op. -/
theorem alErase_absent (k : String) (l : List (String × Socket))
    (h : alLookup k l = none) : alErase k l = l := by
  induction l with
  | nil => rfl
  | cons p rest ih =>
    obtain ⟨k1, v1⟩ := p
    by_cases h1 : k1 = k
    · simp [alLookup, h1] at h
    · simp [alLookup, h1] at h
      simp [alErase, h1, ih h]

/-- Overwriting an existing key keeps the number of entries. -/
theorem length_alInsert_present (k : String) (v : Socket) (l : List (String × Socket))
    (h : (alLookup k l).isSome) : (alInsert k v l).length = l.length := by
  induction l with
  | nil => simp [alLookup] at h
  | cons p rest ih =>
    obtain ⟨k1, v1⟩ := p
    by_cases h1 : k1 = k
    · simp [alInsert, h1]
    · simp [alLookup, h1] at h
      simp [alInsert, h1, ih h]

/-- Inserting a fresh key adds exactly one entry. -/
theorem length_alInsert_absent (k : String) (v : Socket) (l : List (String × Socket))
    (h : alLookup k l = none) : (alInsert k v l).length = l.length + 1 := by
  rw [alInsert_absent k v l h]
  simp

/-- With distinct keys, erasing a present key removes exactly one
entry. -/
theorem length_alErase_present (k : String) (l : List (String × Socket))
    (hnd : (l.map Prod.fst).Nodup) (h : (alLookup k l).isSome) :
    (alErase k l).length + 1 = l.length := by
  induction l with
  | nil => simp [alLookup] at h
  | cons p rest ih =>
    obtain ⟨k1, v1⟩ := p
    simp only [List.map_cons, List.nodup_cons] at hnd
    by_cases h1 : k1 = k
    · subst h1
      have hnone : alLookup k1 rest = none := (alLookup_eq_none_iff k1 rest).mpr hnd.1
      simp [alErase, alErase_absent k1 rest hnone]
    · simp [alLookup, h1] at h
      simp [alErase, h1, ih hnd.2 h]

/-- Every key of the map after an insert is the inserted key or an old
key. -/
theorem mem_keys_alInsert (q k : String) (v : Socket) (l : List (String × Socket))
    (h : q ∈ (alInsert k v l).map Prod.fst) : q = k ∨ q ∈ l.map Prod.fst := by
  induction l with
  | nil => simpa [alInsert] using h
  | cons p rest ih =>
    obtain ⟨k1, v1⟩ := p
    by_cases h1 : k1 = k
    · simp [alInsert, h1] at h
      rcases h with h | h
      · exact Or.inl h
      · exact Or.inr (by simp [h])
    · simp [alInsert, h1] at h
      rcases h with h | h
      · exact Or.inr (by simp [h])
      · rcases ih (by simpa using h) with h2 | h2
        · exact Or.inl h2
        · exact Or.inr (by simp [h2])

/-- Every entry of the map after an insert is the new binding or an old
entry. -/
theorem mem_alInsert (p : String × Socket) (k : String) (v : Socket)
    (l : List (String × Socket)) (h : p ∈ alInsert k v l) : p = (k, v) ∨ p ∈ l := by
  induction l with
  | nil => simpa [alInsert] using h
  | cons p1 rest ih =>
    obtain ⟨k1, v1⟩ := p1
    by_cases h1 : k1 = k
    · simp [alInsert, h1] at h
      rcases h with h | h
      · exact Or.inl (by simp [h])
      · exact Or.inr (by simp [h])
    · simp [alInsert, h1] at h
      rcases h with h | h
      · exact Or.inr (by simp [h])
      · rcases ih (by simpa using h) with h2 | h2
        · exact Or.inl h2
        · exact Or.inr (by simp [h2])

/-- Every entry surviving an erase was an entry before. -/
theorem mem_alErase (p : String × Socket) (k : String) (l : List (String × Socket))
    (h : p ∈ alErase k l) : p ∈ l := by
  induction l with
  | nil => simp [alErase] at h
  | cons p1 rest ih =>
    obtain ⟨k1, v1⟩ := p1
    by_cases h1 : k1 = k
    · simp [alErase, h1] at h
      exact List.mem_cons_of_mem _ (ih h)
    · simp [alErase, h1] at h
      rcases h with h | h
      · exact by simp [h]
      · exact List.mem_cons_of_mem _ (ih (by simpa using h))

/-- Insertion keeps the keys distinct. -/
theorem nodup_alInsert (k : String) (v : Socket) (l : List (String × Socket))
    (hnd : (l.map Prod.fst).Nodup) : ((alInsert k v l).map Prod.fst).Nodup := by
  induction l with
  | nil => simp [alInsert]
  | cons p rest ih =>
    obtain ⟨k1, v1⟩ := p
    simp only [List.map_cons, List.nodup_cons] at hnd
    by_cases h1 : k1 = k
    · subst h1
      have hstep : alInsert k1 v ((k1, v1) :: rest) = (k1, v) :: rest := by
        simp [alInsert]
      rw [hstep]
      simp only [List.map_cons, List.nodup_cons]
      exact ⟨hnd.1, hnd.2⟩
    · simp only [alInsert, if_neg h1, List.map_cons, List.nodup_cons]
      constructor
      · intro hmem
        rcases mem_keys_alInsert k1 k v rest hmem with h2 | h2
        · exact h1 h2
        · exact hnd.1 h2
      · exact ih hnd.2

/-- Erasure keeps the keys distinct. -/
theorem nodup_alErase (k : String) (l : List (String × Socket))
    (hnd : (l.map Prod.fst).Nodup) : ((alErase k l).map Prod.fst).Nodup := by
  induction l with
  | nil => simp [alErase]
  | cons p rest ih =>
    obtain ⟨k1, v1⟩ := p
    simp only [List.map_cons, List.nodup_cons] at hnd
    by_cases h1 : k1 = k
    · simp only [alErase, if_pos h1]
      exact ih hnd.2
    · simp only [alErase, if_neg h1, List.map_cons, List.nodup_cons]
      constructor
      · intro hmem
        rw [List.mem_map] at hmem
        obtain ⟨q, hq, hq1⟩ := hmem
        exact hnd.1 (List.mem_map.mpr ⟨q, mem_alErase q k rest hq, hq1⟩)
      · exact ih hnd.2

/-- A successful lookup returns a stored entry. -/
theorem alLookup_mem (k : String) (v : Socket) (l : List (String × Socket))
    (h : alLookup k l = some v) : (k, v) ∈ l := by
  induction l with
  | nil => simp [alLookup] at h
  | cons p rest ih =>
    obtain ⟨k1, v1⟩ := p
    by_cases h1 : k1 = k
    · subst h1
      simp [alLookup] at h
      simp [h]
    · simp [alLookup, h1] at h
      exact List.mem_cons_of_mem _ (ih h)

/-- The active-connection count is the registry length. -/
theorem numberOfActiveConnections_eq (s : ServerState) :
    numberOfActiveConnections s = s.socketIoConnections.length := by
  simp [numberOfActiveConnections]

/-- The null server starts in a good registry state. -/
theorem goodState_createNull : goodState createNull := by
  constructor
  · simp [createNull]
  · intro p hp
    simp [createNull] at hp

/-- connectNullClient preserves the registry invariant. -/
theorem goodState_connectNullClient (s : ServerState) (c : String) (h : goodState s) :
    goodState (connectNullClient s c) := by
  constructor
  · exact nodup_alInsert c _ s.socketIoConnections h.1
  · intro p hp
    rcases mem_alInsert p c { id := c, isNull := true, handle := s.nextSocketHandle }
        s.socketIoConnections hp with h2 | h2
    · rw [h2]
      exact ⟨rfl, rfl⟩
    · exact h.2 p h2

/-- disconnectClient preserves the registry invariant. -/
theorem goodState_disconnectClient (s : ServerState) (sock : Socket) (h : goodState s) :
    goodState (disconnectClient s sock) := by
  constructor
  · exact nodup_alErase sock.id s.socketIoConnections h.1
  · intro p hp
    exact h.2 p (mem_alErase p sock.id s.socketIoConnections hp)

/-- Every substitute-transport registry operation preserves the
invariant. -/
theorem goodState_applyConnOp (s : ServerState) (op : ConnOp) (h : goodState s) :
    goodState (applyConnOp s op) := by
  cases op with
  | connect c => exact goodState_connectNullClient s c h
  | disconnect c =>
    rcases hl : alLookup c s.socketIoConnections with _ | sock
    · have happ : applyConnOp s (ConnOp.disconnect c) = s := by
        simp [applyConnOp, disconnectNullClient, lookUpSocket, hl, exceptRun]
      rw [happ]
      exact h
    · have hsock : sock.id = c ∧ sock.isNull = true :=
        h.2 (c, sock) (alLookup_mem c sock s.socketIoConnections hl)
      have happ : applyConnOp s (ConnOp.disconnect c) = disconnectClient s sock := by
        simp [applyConnOp, disconnectNullClient, lookUpSocket, hl, hsock.2, exceptRun]
      rw [happ]
      exact goodState_disconnectClient s sock h

/-- Membership after a sequence of substitute-transport operations is
predicted by the sequence alone: connect sets an id live, disconnect
clears it. -/
theorem isClientConnected_runConnOps (ops : List ConnOp) :
    ∀ s q, goodState s →
      isClientConnected (runConnOps s ops) q = specActive (isClientConnected s q) q ops := by
  induction ops with
  | nil =>
    intro s q _
    rfl
  | cons op rest ih =>
    intro s q h
    have hstep : runConnOps s (op :: rest) = runConnOps (applyConnOp s op) rest := rfl
    rw [hstep, ih (applyConnOp s op) q (goodState_applyConnOp s op h)]
    cases op with
    | connect c =>
      have hb : isClientConnected (applyConnOp s (ConnOp.connect c)) q
          = (if c = q then true else isClientConnected s q) := by
        by_cases hcq : c = q
        · subst hcq
          simp [applyConnOp, connectNullClient, connectClient, isClientConnected,
            alLookup_alInsert_self]
        · simp [applyConnOp, connectNullClient, connectClient, isClientConnected,
            alLookup_alInsert_ne q c _ _ (Ne.symm hcq), hcq]
      rw [specActive, hb]
    | disconnect c =>
      rcases hl : alLookup c s.socketIoConnections with _ | sock
      · have happ : applyConnOp s (ConnOp.disconnect c) = s := by
          simp [applyConnOp, disconnectNullClient, lookUpSocket, hl, exceptRun]
        have hb : isClientConnected (applyConnOp s (ConnOp.disconnect c)) q
            = (if c = q then false else isClientConnected s q) := by
          rw [happ]
          by_cases hcq : c = q
          · subst hcq
            simp [isClientConnected, hl]
          · simp [hcq]
        rw [specActive, hb]
      · have hsock : sock.id = c ∧ sock.isNull = true :=
        h.2 (c, sock) (alLookup_mem c sock s.socketIoConnections hl)
        have happ : applyConnOp s (ConnOp.disconnect c) = disconnectClient s sock := by
          simp [applyConnOp, disconnectNullClient, lookUpSocket, hl, hsock.2, exceptRun]
        have hb : isClientConnected (applyConnOp s (ConnOp.disconnect c)) q
            = (if c = q then false else isClientConnected s q) := by
          rw [happ]
          by_cases hcq : c = q
          · subst hcq
            simp [disconnectClient, isClientConnected, hsock.1, alLookup_alErase_self]
          · simp [disconnectClient, isClientConnected, hsock.1,
              alLookup_alErase_ne q c _ (Ne.symm hcq), hcq]
        rw [specActive, hb]

/-- On a duplicate-free sequence, the connection count plus the
completed disconnects equals the starting count plus the connects. -/
theorem count_runConnOps (ops : List ConnOp) :
    ∀ s, goodState s → validConnSeq s ops = true →
      numberOfActiveConnections (runConnOps s ops) + completedDisconnects s ops
        = numberOfActiveConnections s + countConnects ops := by
  induction ops with
  | nil =>
    intro s _ _
    simp [runConnOps, completedDisconnects, countConnects]
  | cons op rest ih =>
    intro s h hv
    cases op with
    | connect c =>
      rw [validConnSeq, Bool.and_eq_true] at hv
      have h1 : isClientConnected s c = false := by
        rcases hv.1 with hv1
        cases hc : isClientConnected s c
        · rfl
        · rw [hc] at hv1
          simp at hv1
      have hnone : alLookup c s.socketIoConnections = none := by
        rcases hl : alLookup c s.socketIoConnections with _ | sock
        · rfl
        · simp [isClientConnected, hl] at h1
      have hlen : numberOfActiveConnections (applyConnOp s (ConnOp.connect c))
          = numberOfActiveConnections s + 1 := by
        simp only [applyConnOp, connectNullClient, connectClient,
          numberOfActiveConnections_eq]
        exact length_alInsert_absent c _ s.socketIoConnections hnone
      have hrun : runConnOps s (ConnOp.connect c :: rest)
          = runConnOps (applyConnOp s (ConnOp.connect c)) rest := rfl
      have hcd : completedDisconnects s (ConnOp.connect c :: rest)
          = completedDisconnects (applyConnOp s (ConnOp.connect c)) rest := rfl
      rw [hrun, hcd, countConnects,
        ih (applyConnOp s (ConnOp.connect c))
          (goodState_applyConnOp s (ConnOp.connect c) h) hv.2, hlen]
      omega
    | disconnect c =>
      rw [validConnSeq] at hv
      rcases hl : alLookup c s.socketIoConnections with _ | sock
      · have herr : disconnectNullClient s c
            = Except.error (FailFastError.socketNotConnected c) := by
          simp [disconnectNullClient, lookUpSocket, hl]
        have happ : applyConnOp s (ConnOp.disconnect c) = s := by
          simp [applyConnOp, herr, exceptRun]
        have hcd : completedDisconnects s (ConnOp.disconnect c :: rest)
            = completedDisconnects (applyConnOp s (ConnOp.disconnect c)) rest := by
          simp [completedDisconnects, herr]
        have hrun : runConnOps s (ConnOp.disconnect c :: rest)
            = runConnOps (applyConnOp s (ConnOp.disconnect c)) rest := rfl
        rw [hrun, hcd, countConnects, ih (applyConnOp s (ConnOp.disconnect c))
          (goodState_applyConnOp s (ConnOp.disconnect c) h) hv, happ]
      · have hsock : sock.id = c ∧ sock.isNull = true :=
        h.2 (c, sock) (alLookup_mem c sock s.socketIoConnections hl)
        have hok : disconnectNullClient s c = Except.ok (disconnectClient s sock) := by
          simp [disconnectNullClient, lookUpSocket, hl, hsock.2]
        have happ : applyConnOp s (ConnOp.disconnect c) = disconnectClient s sock := by
          simp [applyConnOp, hok, exceptRun]
        have hcd : completedDisconnects s (ConnOp.disconnect c :: rest)
            = 1 + completedDisconnects (applyConnOp s (ConnOp.disconnect c)) rest := by
          simp [completedDisconnects, hok]
        have hlen : numberOfActiveConnections (disconnectClient s sock) + 1
            = numberOfActiveConnections s := by
          simp only [disconnectClient, numberOfActiveConnections_eq]
          refine length_alErase_present sock.id s.socketIoConnections h.1 ?_
          rw [hsock.1, hl]
          rfl
        have hrun : runConnOps s (ConnOp.disconnect c :: rest)
            = runConnOps (applyConnOp s (ConnOp.disconnect c)) rest := rfl
        have hih := ih (applyConnOp s (ConnOp.disconnect c))
          (goodState_applyConnOp s (ConnOp.disconnect c) h) hv
        rw [happ] at hih
        rw [hrun, hcd, countConnects, happ]
        omega

/-- No operation of the non-send test surface (connect, disconnect,
simulate an inbound message) touches _lastSentMessage. -/
theorem getLastSentMessage_runTestOps (ops : List TestOp) :
    ∀ s, getLastSentMessage (runTestOps s ops) = getLastSentMessage s := by
  induction ops with
  | nil =>
    intro s
    rfl
  | cons op rest ih =>
    intro s
    have hone : getLastSentMessage (applyTestOp s op) = getLastSentMessage s := by
      cases op with
      | connect c => rfl
      | disconnect c =>
        rcases hl : alLookup c s.socketIoConnections with _ | sock
        · simp [applyTestOp, disconnectNullClient, lookUpSocket, hl, exceptRun]
        · by_cases hn : sock.isNull
          · simp [applyTestOp, disconnectNullClient, lookUpSocket, hl, hn, exceptRun,
              disconnectClient, getLastSentMessage]
          · simp [applyTestOp, disconnectNullClient, lookUpSocket, hl, hn, exceptRun]
      | simulate c m => rfl
    have hstep : runTestOps s (op :: rest) = runTestOps (applyTestOp s op) rest := rfl
    rw [hstep, ih (applyTestOp s op), hone]

/-- Claim C1, as frozen, is false on the code: after the sequence
connect a, connect a the registry holds one entry (the object is keyed
by id, so the second connect overwrites), while the number of connects
minus the number of completed disconnects is two. -/
theorem c1_counterexample :
    numberOfActiveConnections
        (runConnOps createNull [ConnOp.connect "a", ConnOp.connect "a"])
      ≠ countConnects [ConnOp.connect "a", ConnOp.connect "a"]
        - completedDisconnects createNull [ConnOp.connect "a", ConnOp.connect "a"] := by
  decide

/-- Claim C1 (amended): for every sequence of connectNullClient and
disconnectNullClient operations in which no connect targets an id that
is currently connected, numberOfActiveConnections() equals the number
of connects minus the number of completed disconnects (stated
additively); and for every sequence whatsoever, isClientConnected(id)
is true exactly for the ids whose last connect/disconnect operation in
the sequence is a connect, that is the ids that have been connected and
not since disconnected. -/
theorem c1_registry_counts (ops : List ConnOp) (clientId : String) :
    (validConnSeq createNull ops = true →
      numberOfActiveConnections (runConnOps createNull ops)
        + completedDisconnects createNull ops = countConnects ops) ∧
    isClientConnected (runConnOps createNull ops) clientId
      = specActive false clientId ops := by
  constructor
  · intro hv
    have hc := count_runConnOps ops createNull goodState_createNull hv
    simpa [createNull, numberOfActiveConnections] using hc
  · have hm := isClientConnected_runConnOps ops createNull clientId goodState_createNull
    simpa [createNull, isClientConnected, alLookup] using hm

/-- Claim C1 witness: a concrete valid sequence. -/
theorem c1_registry_counts_witness :
    validConnSeq createNull sampleOps = true ∧
    numberOfActiveConnections (runConnOps createNull sampleOps)
        + completedDisconnects createNull sampleOps = countConnects sampleOps ∧
    isClientConnected (runConnOps createNull sampleOps) "a"
      = specActive false "a" sampleOps :=
  ⟨by decide, (c1_registry_counts sampleOps "a").1 (by decide),
    (c1_registry_counts sampleOps "a").2⟩

/-- Claim C2: for a clientId that is not currently registered,
sendToOneClient and broadcastToAllClientsButOne each fail fast with the
look-up error; the recovered server is untouched, so no SendRecord is
produced, the last-sent record is unchanged, and no SERVER_MESSAGE
event is appended. -/
theorem c2_unregistered_send_fails (s : ServerState) (clientId : String) (m : Message)
    (h : isClientConnected s clientId = false) :
    sendToOneClient s clientId m
      = Except.error (FailFastError.socketNotConnected clientId) ∧
    broadcastToAllClientsButOne s clientId m
      = Except.error (FailFastError.socketNotConnected clientId) ∧
    exceptRun s (sendToOneClient s clientId m) = s ∧
    exceptRun s (broadcastToAllClientsButOne s clientId m) = s ∧
    getLastSentMessage (exceptRun s (sendToOneClient s clientId m))
      = getLastSentMessage s ∧
    getLastSentMessage (exceptRun s (broadcastToAllClientsButOne s clientId m))
      = getLastSentMessage s := by
  have hnone : alLookup clientId s.socketIoConnections = none := by
    rcases hl : alLookup clientId s.socketIoConnections with _ | sock
    · rfl
    · simp [isClientConnected, hl] at h
  refine ⟨?_, ?_, ?_, ?_, ?_, ?_⟩ <;>
    simp [sendToOneClient, broadcastToAllClientsButOne, lookUpSocket, hnone, exceptRun]

/-- Claim C2 witness: a never-connected id on the fresh null server. -/
theorem c2_unregistered_send_fails_witness :
    isClientConnected createNull "x" = false ∧
    sendToOneClient createNull "x" drawMessage
      = Except.error (FailFastError.socketNotConnected "x") :=
  ⟨by decide, (c2_unregistered_send_fails createNull "x" drawMessage (by decide)).1⟩

/-- Claim C3: sending to a connected client succeeds, issues exactly one
transport emit, on exactly the handle registered for that clientId (the
trace grows by that one socketEmit and the SERVER_MESSAGE event and by
nothing else, so no other handle receives anything), and the last sent
record becomes the ONE_CLIENT record carrying the message and the
clientId. -/
theorem c3_send_to_one_client (s : ServerState) (clientId : String) (m : Message)
    (sock : Socket) (h : alLookup clientId s.socketIoConnections = some sock) :
    sendToOneClient s clientId m = Except.ok
      { s with
        lastSentMessage := some
          { message := m, clientId := some clientId, type := SendType.one_client }
        events := s.events ++
          [Event.socketEmit sock.handle sock.id m.name m.payload,
           Event.serverMessage
             { message := m, clientId := some clientId, type := SendType.one_client }] } ∧
    getLastSentMessage (exceptRun s (sendToOneClient s clientId m))
      = some { message := m, clientId := some clientId, type := SendType.one_client } := by
  have hsend : sendToOneClient s clientId m = Except.ok
      { s with
        lastSentMessage := some
          { message := m, clientId := some clientId, type := SendType.one_client }
        events := s.events ++
          [Event.socketEmit sock.handle sock.id m.name m.payload,
           Event.serverMessage
             { message := m, clientId := some clientId, type := SendType.one_client }] } := by
    simp [sendToOneClient, lookUpSocket, h, recordServerMessage]
  exact ⟨hsend, by simp [hsend, exceptRun, getLastSentMessage]⟩

/-- Claim C3 witness: the spec scenario with c1 and c2 connected. -/
theorem c3_send_to_one_client_witness :
    getLastSentMessage
        (exceptRun (connectNullClient (connectNullClient createNull "c1") "c2")
          (sendToOneClient (connectNullClient (connectNullClient createNull "c1") "c2")
            "c1" drawMessage))
      = some { message := drawMessage, clientId := some "c1",
               type := SendType.one_client } :=
  (c3_send_to_one_client (connectNullClient (connectNullClient createNull "c1") "c2")
    "c1" drawMessage { id := "c1", isNull := true, handle := 0 } (by decide)).2

/-- Claim C4: broadcastToAllClients always records an ALL_CLIENTS
SendRecord with the same message, returned by getLastSentMessage. -/
theorem c4_broadcast_records_all_clients (s : ServerState) (m : Message) :
    getLastSentMessage (broadcastToAllClients s m)
      = some { message := m, clientId := none, type := SendType.all_clients } := rfl

/-- Claim C5: connect then disconnect of the same id succeeds and fully
forgets the id: the registry no longer has the key, isClientConnected
is false and a subsequent lookup fails fast. -/
theorem c5_connect_disconnect_forgets (s : ServerState) (clientId : String) :
    ∃ s2, disconnectNullClient (connectNullClient s clientId) clientId
        = Except.ok s2 ∧
      lookUpSocket s2 clientId
        = Except.error (FailFastError.socketNotConnected clientId) ∧
      isClientConnected s2 clientId = false ∧
      alLookup clientId s2.socketIoConnections = none := by
  have hl : alLookup clientId (connectNullClient s clientId).socketIoConnections
      = some { id := clientId, isNull := true, handle := s.nextSocketHandle } := by
    simp [connectNullClient, connectClient, alLookup_alInsert_self]
  refine ⟨disconnectClient (connectNullClient s clientId)
      { id := clientId, isNull := true, handle := s.nextSocketHandle }, ?_, ?_, ?_, ?_⟩
  · simp [disconnectNullClient, lookUpSocket, hl]
  · simp [disconnectClient, lookUpSocket, alLookup_alErase_self]
  · simp [disconnectClient, isClientConnected, alLookup_alErase_self]
  · simp [disconnectClient, alLookup_alErase_self]

/-- Claim C6: disconnectNullClient fails fast with the look-up error
when the id is unregistered, and fails fast with the non-null-client
error when the registered connection is a real (non-substitute) one, in
which case the id stays registered. -/
theorem c6_disconnect_null_guard (s : ServerState) (clientId : String) :
    (isClientConnected s clientId = false →
      disconnectNullClient s clientId
        = Except.error (FailFastError.socketNotConnected clientId)) ∧
    (∀ sock, alLookup clientId s.socketIoConnections = some sock →
      sock.isNull = false →
      disconnectNullClient s clientId
        = Except.error (FailFastError.disconnectNonNullClient clientId) ∧
      isClientConnected (exceptRun s (disconnectNullClient s clientId)) clientId
        = true) := by
  constructor
  · intro h
    have hnone : alLookup clientId s.socketIoConnections = none := by
      rcases hl : alLookup clientId s.socketIoConnections with _ | sock
      · rfl
      · simp [isClientConnected, hl] at h
    simp [disconnectNullClient, lookUpSocket, hnone]
  · intro sock hl hnn
    have herr : disconnectNullClient s clientId
        = Except.error (FailFastError.disconnectNonNullClient clientId) := by
      simp [disconnectNullClient, lookUpSocket, hl, hnn]
    exact ⟨herr, by simp [herr, exceptRun, isClientConnected, hl]⟩

/-- Claim C6 witness: a server holding one real connection. -/
theorem c6_disconnect_null_guard_witness :
    disconnectNullClient realSockServer "r"
      = Except.error (FailFastError.disconnectNonNullClient "r") ∧
    isClientConnected (exceptRun realSockServer (disconnectNullClient realSockServer "r"))
      "r" = true :=
  (c6_disconnect_null_guard realSockServer "r").2
    { id := "r", isNull := false, handle := 7 } (by decide) (by decide)

/-- Claim C7: simulating an inbound message for a connected client
appends exactly one CLIENT_MESSAGE event carrying that clientId and
that message unmodified, and changes nothing else: the registry and the
last sent record are untouched. -/
theorem c7_simulate_connected (s : ServerState) (clientId : String) (m : Message)
    (_h : isClientConnected s clientId = true) :
    simulateClientMessage s clientId m
      = { s with events := s.events ++ [Event.clientMessage clientId m] } ∧
    (simulateClientMessage s clientId m).socketIoConnections = s.socketIoConnections ∧
    getLastSentMessage (simulateClientMessage s clientId m) = getLastSentMessage s :=
  ⟨rfl, rfl, rfl⟩

/-- Claim C7 witness: one connected client. -/
theorem c7_simulate_connected_witness :
    isClientConnected (connectNullClient createNull "a") "a" = true ∧
    simulateClientMessage (connectNullClient createNull "a") "a" drawMessage
      = { connectNullClient createNull "a" with
          events := (connectNullClient createNull "a").events
            ++ [Event.clientMessage "a" drawMessage] } :=
  ⟨by decide,
    (c7_simulate_connected (connectNullClient createNull "a") "a" drawMessage
      (by decide)).1⟩

/-- Claim C8: connecting an already-connected id again does not fail:
the registered handle is replaced by the freshly allocated substitute
socket, one more CLIENT_CONNECT event is emitted, and the connection
count is unchanged because the registry is keyed by id. -/
theorem c8_duplicate_connect (s : ServerState) (clientId : String)
    (h : isClientConnected s clientId = true) :
    numberOfActiveConnections (connectNullClient s clientId)
      = numberOfActiveConnections s ∧
    (connectNullClient s clientId).events
      = s.events ++ [Event.clientConnect clientId] ∧
    alLookup clientId (connectNullClient s clientId).socketIoConnections
      = some { id := clientId, isNull := true, handle := s.nextSocketHandle } ∧
    (connectNullClient s clientId).nextSocketHandle = s.nextSocketHandle + 1 := by
  refine ⟨?_, rfl, ?_, rfl⟩
  · simp only [connectNullClient, connectClient, numberOfActiveConnections_eq]
    exact length_alInsert_present clientId _ s.socketIoConnections
      (by simpa [isClientConnected] using h)
  · simp [connectNullClient, connectClient, alLookup_alInsert_self]

/-- Claim C8 witness: connect a twice. -/
theorem c8_duplicate_connect_witness :
    isClientConnected (connectNullClient createNull "a") "a" = true ∧
    numberOfActiveConnections (connectNullClient (connectNullClient createNull "a") "a")
      = numberOfActiveConnections (connectNullClient createNull "a") :=
  ⟨by decide,
    (c8_duplicate_connect (connectNullClient createNull "a") "a" (by decide)).1⟩

/-- Claim C9: simulateClientMessage performs no connectivity check: for
any clientId whatsoever, connected or not, it succeeds (it is a total
operation) and appends exactly the CLIENT_MESSAGE event carrying that
clientId and message. -/
theorem c9_simulate_unchecked (s : ServerState) (clientId : String) (m : Message) :
    simulateClientMessage s clientId m
      = { s with events := s.events ++ [Event.clientMessage clientId m] } := rfl

/-- Claim C10: before any send operation has completed, the last sent
record does not exist: the fresh null server starts with none, and
every sequence of non-send test operations keeps it none. -/
theorem c10_no_record_before_send (ops : List TestOp) :
    getLastSentMessage (runTestOps createNull ops) = none :=
  getLastSentMessage_runTestOps ops createNull

end RTS
